import Mathlib

/-!
Shallow embedding of `main.py` of the tc-heating repository: a BLE thermostat
polling daemon.  Pure data flow (config loading) is embedded as pure functions
over a parsed-JSON data model; the per-device supervisor loop is embedded as a
state machine over an explicit environment describing the outcome of every
external call (BLE scan, connect, query, disconnect) of each cycle, producing
an event trace.  Python strings are modelled as Lean `String`, with `str.upper`
modelled as per-character ASCII uppercasing.
-/

/-- `POLL_INTERVAL_SECONDS = 60` from main.py. -/
def POLL_INTERVAL_SECONDS : Nat := 60

/-- `DATA_FILE`: path of the config file next to the script (main.py line 20),
modelled by its file name. -/
def DATA_FILE : String := "data.json"

/-- Python `str.upper`, per-character ASCII uppercasing. -/
def pyUpper (s : String) : String := String.mk (s.data.map Char.toUpper)

/-- Python `str.endswith`. -/
def pyEndsWith (s suffixStr : String) : Bool :=
  suffixStr.data.isSuffixOf s.data

/-- `address.upper().endswith("XX:XX:XX")` from main.py line 41. -/
def is_dummy (address : String) : Bool :=
  pyEndsWith (pyUpper address) "XX:XX:XX"

/-- The dataclass `ThermostatConfig` of main.py lines 23-29. -/
structure ThermostatConfig where
  id : String
  room_name : String
  label : String
  address : String
  is_dummy : Bool
deriving DecidableEq

/-- One element of the parsed `rooms` JSON array; each field is `none` when the
key is absent from the JSON object. -/
structure RoomEntry where
  id : Option String
  name : Option String
deriving DecidableEq

/-- One element of the parsed `thermostats` JSON array; each field is `none`
when the key is absent from the JSON object. -/
structure ThermostatEntry where
  id : Option String
  roomId : Option String
  label : Option String
  address : Option String
deriving DecidableEq

/-- The parsed top-level JSON object of the config file; `rooms` and
`thermostats` are `none` when the key is absent. -/
structure ConfigData where
  rooms : Option (List RoomEntry)
  thermostats : Option (List ThermostatEntry)
deriving DecidableEq

/-- Python dict lookup with default `d.get(k, dflt)` on a dict modelled as an
association list in which a later write is placed BEFORE earlier writes, so
`List.lookup` (first match) realises Python's overwrite-on-duplicate-key
semantics. -/
def dictGet (m : List (String × String)) (k dflt : String) : String :=
  (m.lookup k).getD dflt

/-- The dict comprehension `{room["id"]: room["name"] for room in
data.get("rooms", [])}` of main.py line 36.  `room["id"]` and `room["name"]`
are direct subscripts: a missing key raises `KeyError`, which escapes
`load_thermostats` (modelled as `Except.error`).  The binding produced by a
later room is consed in front of the map of the earlier rooms so that lookups
see the last write, as in a Python dict. -/
def rooms_by_id : List RoomEntry → Except String (List (String × String))
  | [] => .ok []
  | room :: rest =>
    match room.id with
    | none => .error "KeyError: id"
    | some i =>
      match room.name with
      | none => .error "KeyError: name"
      | some n =>
        match rooms_by_id rest with
        | .error e => .error e
        | .ok m => .ok (m ++ [(i, n)])

/-- Conversion of one `thermostats` entry into a `ThermostatConfig`
(main.py lines 40-50), given the room map. -/
def convertEntry (m : List (String × String)) (entry : ThermostatEntry) :
    ThermostatConfig :=
  let address := entry.address.getD ""
  { id := entry.id.getD ""
    room_name := dictGet m (entry.roomId.getD "") "Unbekannt"
    label := entry.label.getD (entry.id.getD "")
    address := address
    is_dummy := is_dummy address }

/-- `load_thermostats` of main.py lines 32-52, applied to the already-parsed
JSON value (`json.load` failure and file-missing failure are modelled upstream,
see `programStart`). -/
def load_thermostats (data : ConfigData) : Except String (List ThermostatConfig) :=
  match rooms_by_id (data.rooms.getD []) with
  | .error e => .error e
  | .ok m => .ok ((data.thermostats.getD []).map (convertEntry m))

/-- The known eq3btsmart exception family caught on main.py line 99:
`Eq3ConnectionException`, `Eq3TimeoutException`, `Eq3CommandException`,
`Eq3StateException`. -/
inductive KnownErr where
  | connection
  | timeout
  | command
  | state
deriving DecidableEq

/-- Classification of an exception escaping the try block: one of the known
eq3 exceptions, or any other `Exception`. -/
inductive CycleErr where
  | known (e : KnownErr)
  | unknown
deriving DecidableEq

/-- Exception raised by `async_disconnect` during cleanup: `EOFError`
(main.py line 118) or any other `Exception` (line 124). -/
inductive DisconnectErr where
  | eof
  | other
deriving DecidableEq

/-- `bleak.backends.device.BLEDevice` reduced to the fields the program
touches (main.py line 62). -/
structure BLEDevice where
  address : String
  name : String
deriving DecidableEq

/-- The status record returned by `async_get_status`, with `float` target
temperature modelled as a rational. -/
structure Status where
  target_temperature : ℚ
  valve : Int
  operation_mode : String
  is_window_open : Bool
  is_boost : Bool
  is_low_battery : Bool
deriving DecidableEq

deriving instance DecidableEq for Except

/-- Outcome of every external call one active cycle can make.  `scanResult` is
the behaviour of `BleakScanner.find_device_by_address`: a raised exception,
no device found, or a found device.  `connectResult`/`queryResult` are the
behaviour of `async_connect`/`async_get_status`.  `connectedAtCleanup` is the
value of `thermostat.is_connected` read in the `finally` block, and
`disconnectResult` the behaviour of `async_disconnect` there. -/
structure CycleEnv where
  scanResult : Except CycleErr (Option BLEDevice)
  connectResult : Option CycleErr
  queryResult : Except CycleErr Status
  connectedAtCleanup : Bool
  disconnectResult : Option DisconnectErr
deriving DecidableEq

/-- The observable events of a supervisor run: external calls, sleeps, and log
lines (the constructor records the log level and German message of main.py). -/
inductive Event where
  | scan (address : String)
  | connect
  | query
  | disconnect
  | sleep (seconds : Nat)
  | logStatus (label address room : String) (st : Status)
  | logKnownError (label address : String) (e : KnownErr)
  | logUnknownError (label address : String)
  | logDisconnectWarning (label address : String)
  | logDisconnectException (label address : String)
  | logHeartbeat (label address room : String)
  | logEmptyConfig (path : String)
deriving DecidableEq

/-- Log levels of the logging calls in main.py. -/
inductive LogLevel where
  | info
  | warning
  | error
deriving DecidableEq

/-- The log level of an event, `none` for non-log events. -/
def logLevel : Event → Option LogLevel
  | .logStatus _ _ _ _ => some .info
  | .logKnownError _ _ _ => some .error
  | .logUnknownError _ _ => some .error
  | .logDisconnectWarning _ _ => some .warning
  | .logDisconnectException _ _ => some .error
  | .logHeartbeat _ _ _ => some .info
  | .logEmptyConfig _ => some .error
  | _ => none

/-- `resolve_ble_device` of main.py lines 55-62: propagate a scanner
exception, raise `Eq3ConnectionException` when no device is found, otherwise
rebuild a `BLEDevice` carrying the config's label as name. -/
def resolve_ble_device (config : ThermostatConfig)
    (scanResult : Except CycleErr (Option BLEDevice)) :
    Except CycleErr BLEDevice :=
  match scanResult with
  | .error e => .error e
  | .ok none => .error (.known .connection)
  | .ok (some d) => .ok { address := d.address, name := config.label }

/-- Result of the try block of one active cycle: the value of the local
`device` variable when the try block ends (normally or by exception), whether
the `thermostat` local was assigned (a `Thermostat` was constructed), the
events emitted, and the exception escaping the try block, if any. -/
structure TryResult where
  device : Option BLEDevice
  created : Bool
  events : List Event
  err : Option CycleErr
deriving DecidableEq

/-- Steps of the try block after `device` is known to be resolved
(main.py lines 84-98): construct `Thermostat`, connect, query, log status. -/
def afterResolve (config : ThermostatConfig) (env : CycleEnv)
    (device : Option BLEDevice) (evs : List Event) : TryResult :=
  match env.connectResult with
  | some e => ⟨device, true, evs ++ [.connect], some e⟩
  | none =>
    match env.queryResult with
    | .error e => ⟨device, true, evs ++ [.connect, .query], some e⟩
    | .ok st =>
      ⟨device, true,
        evs ++ [.connect, .query,
          .logStatus config.label config.address config.room_name st],
        none⟩

/-- The try block of one active cycle (main.py lines 80-98): resolve the
device only when the cached handle is absent, then connect and query. -/
def tryBody (config : ThermostatConfig) (env : CycleEnv)
    (device : Option BLEDevice) : TryResult :=
  match device with
  | none =>
    match resolve_ble_device config env.scanResult with
    | .error e => ⟨none, false, [.scan config.address], some e⟩
    | .ok d => afterResolve config env (some d) [.scan config.address]
  | some d => afterResolve config env (some d) []

/-- The except handlers of main.py lines 99-113: a known eq3 exception is
logged at error level, any other exception via `logging.exception`; both set
`device = None`. -/
def handleErr (config : ThermostatConfig) (device : Option BLEDevice) :
    Option CycleErr → Option BLEDevice × List Event
  | none => (device, [])
  | some (.known e) => (none, [.logKnownError config.label config.address e])
  | some .unknown => (none, [.logUnknownError config.label config.address])

/-- The finally block of main.py lines 114-129: if a `Thermostat` was
constructed and still reports connected, attempt disconnect; `EOFError` is
logged at warning level, any other exception via `logging.exception`, and
neither escapes. -/
def cleanup (config : ThermostatConfig) (env : CycleEnv) (created : Bool) :
    List Event :=
  if created && env.connectedAtCleanup then
    match env.disconnectResult with
    | none => [.disconnect]
    | some .eof =>
      [.disconnect, .logDisconnectWarning config.label config.address]
    | some .other =>
      [.disconnect, .logDisconnectException config.label config.address]
  else []

/-- One iteration of the active `while True` loop of main.py lines 78-131:
try body, except handlers, finally block, then the sleep.  Returns the cached
`device` value carried to the next iteration, and the events of the
iteration. -/
def activeCycle (config : ThermostatConfig) (env : CycleEnv)
    (device : Option BLEDevice) : Option BLEDevice × List Event :=
  let t := tryBody config env device
  let h := handleErr config t.device t.err
  (h.fst,
    t.events ++ h.snd ++ cleanup config env t.created
      ++ [.sleep POLL_INTERVAL_SECONDS])

/-- The active loop run for one environment per cycle, threading the cached
device handle. -/
def runActive (config : ThermostatConfig) :
    List CycleEnv → Option BLEDevice → Option BLEDevice × List Event
  | [], d => (d, [])
  | env :: rest, d =>
    let c := activeCycle config env d
    let r := runActive config rest c.fst
    (r.fst, c.snd ++ r.snd)

/-- One iteration of the dummy branch of `poll_thermostat`
(main.py lines 66-74): heartbeat log line, then sleep. -/
def dummyCycle (config : ThermostatConfig) : List Event :=
  [.logHeartbeat config.label config.address config.room_name,
   .sleep POLL_INTERVAL_SECONDS]

/-- The dummy loop run for a given number of cycles. -/
def runDummy (config : ThermostatConfig) : Nat → List Event
  | 0 => []
  | n + 1 => dummyCycle config ++ runDummy config n

/-- The trace of `poll_thermostat` (main.py lines 65-131) over finitely many
cycles: the dummy branch ignores the per-cycle environments and only
heartbeats; the active branch starts with no cached handle. -/
def poll_thermostat (config : ThermostatConfig) (envs : List CycleEnv) :
    List Event :=
  if config.is_dummy then runDummy config envs.length
  else (runActive config envs none).snd

/-- Whether an event is a sleep. -/
def isSleep : Event → Bool
  | .sleep _ => true
  | _ => false

/-- Whether an event is a disconnect attempt. -/
def isDisconnect : Event → Bool
  | .disconnect => true
  | _ => false

/-- Whether an event is a heartbeat log line. -/
def isHeartbeat : Event → Bool
  | .logHeartbeat _ _ _ => true
  | _ => false

/-- Count of sleep events in a trace. -/
def countSleeps (t : List Event) : Nat := t.countP isSleep

/-- Count of disconnect attempts in a trace. -/
def countDisconnects (t : List Event) : Nat := t.countP isDisconnect

/-- Count of heartbeat log lines in a trace. -/
def countHeartbeats (t : List Event) : Nat := t.countP isHeartbeat

/-- Whether an event is a BLE interaction (device resolution, connect, query
or disconnect). -/
def isHardwareEvent : Event → Bool
  | .scan _ => true
  | .connect => true
  | .query => true
  | .disconnect => true
  | _ => false

/-- Whether the `thermostat` local is assigned during the cycle, i.e. the
resolution step did not raise: either a handle was cached, or the scan
returned a device. -/
def thermostatCreated (env : CycleEnv) (device : Option BLEDevice) : Bool :=
  device.isSome ||
    (match env.scanResult with | .ok (some _) => true | _ => false)

/-- How `main` (main.py lines 134-146) ends: a fatal uncaught config-load
exception, the early return on an empty config list, or running the spawned
supervisor tasks forever. -/
inductive MainOutcome where
  | fatal (e : String)
  | emptyConfig
  | running (cfgs : List ThermostatConfig)
deriving DecidableEq

/-- The supervisor tasks `main` spawns (main.py line 145). -/
def spawned : MainOutcome → List ThermostatConfig
  | .running cfgs => cfgs
  | _ => []

/-- Process exit code: an uncaught exception makes the interpreter exit
nonzero; the early return exits 0; the running case never exits. -/
def exitCode : MainOutcome → Option Nat
  | .fatal _ => some 1
  | .emptyConfig => some 0
  | .running _ => none

/-- Whether the outcome is the fatal (uncaught exception) one. -/
def isFatal : MainOutcome → Bool
  | .fatal _ => true
  | _ => false

/-- The startup logic of `main` (main.py lines 140-146) applied to the result
of `load_thermostats`: propagate a load failure, log and return early on an
empty list, otherwise spawn one `poll_thermostat` task per config. -/
def mainStart :
    Except String (List ThermostatConfig) → List Event × MainOutcome
  | .error e => ([], .fatal e)
  | .ok [] => ([.logEmptyConfig DATA_FILE], .emptyConfig)
  | .ok (c :: cs) => ([], .running (c :: cs))

/-- The whole startup path from the parse result of the config file
(`.error` models a missing or unparsable `data.json`). -/
def programStart (parsed : Except String ConfigData) :
    List Event × MainOutcome :=
  mainStart (parsed.bind load_thermostats)

/-- Splitting of a character list at every colon, as Python `str.split(":")`:
the empty string yields one empty segment. -/
def splitOnColon : List Char → List (List Char)
  | [] => [[]]
  | c :: rest =>
    match splitOnColon rest with
    | [] => [[]]
    | seg :: segs => if c = ':' then [] :: seg :: segs else (c :: seg) :: segs

/-- Modelled from the claim wording, for comparison with the code's
`is_dummy`: the address's final colon-delimited segments spell the placeholder
`"XX:XX:XX"` case-insensitively, i.e. splitting the uppercased address on
colons ends with the three segments `XX`, `XX`, `XX`.  (A single
colon-delimited segment cannot itself contain a colon, so the placeholder,
which contains two, is read as the segment list it delimits.) -/
def is_dummy_claim (address : String) : Bool :=
  ["XX".data, "XX".data, "XX".data].isSuffixOf
    (splitOnColon (pyUpper address).data)

/-- C5 counterexample: at address `"AXX:XX:XX"` the code's `is_dummy` is true
(the uppercased address merely ends with the characters `"XX:XX:XX"`), but the
final colon-delimited segments of the address are `AXX`, `XX`, `XX`, so the
claimed segment-aligned condition is false. -/
theorem C5_counterexample :
    is_dummy "AXX:XX:XX" = true ∧ is_dummy_claim "AXX:XX:XX" = false := by
  exact ⟨by decide, by decide⟩

/-- C5 (amended): `is_dummy` is true iff the uppercased address ends with the
character string `"XX:XX:XX"` — not necessarily aligned to a colon boundary —
and the edge cases behave as claimed: empty string false, lowercase and mixed
case true, no colon segments false. -/
theorem C5_is_dummy :
    (∀ address : String,
      is_dummy address = true ↔
        ∃ t : List Char, t ++ ("XX:XX:XX").data = (pyUpper address).data)
    ∧ is_dummy "" = false
    ∧ is_dummy "aa:bb:cc:xx:xx:xx" = true
    ∧ is_dummy "Aa:Bb:Cc:Xx:xX:xx" = true
    ∧ is_dummy "XXXXXX" = false := by
  refine ⟨fun address => ?_, by decide, by decide, by decide, by decide⟩
  exact (List.isSuffixOf_iff_suffix).trans Iff.rfl

/-- C7: with an empty configuration list, `main` logs one error line naming
the config file path, spawns no supervisor task, and the process terminates
normally with exit code 0. -/
theorem C7_empty_config :
    mainStart (.ok []) = ([Event.logEmptyConfig DATA_FILE], .emptyConfig)
    ∧ spawned (mainStart (.ok [])).snd = []
    ∧ exitCode (mainStart (.ok [])).snd = some 0
    ∧ logLevel (Event.logEmptyConfig DATA_FILE) = some .error := by
  exact ⟨rfl, rfl, rfl, rfl⟩

/-- The parsed form of the config file `{}`: both keys absent. -/
def emptyObjectData : ConfigData := ⟨none, none⟩

/-- C10: a config object missing the `rooms` and/or `thermostats` keys is not
a load failure: `load_thermostats` returns the empty (or correspondingly
reduced) list, and for the fully empty object the program takes the
empty-configuration path, logging an error and exiting with code 0. -/
theorem C10_missing_keys :
    load_thermostats emptyObjectData = .ok []
    ∧ (∀ rs m, rooms_by_id rs = .ok m →
        load_thermostats ⟨some rs, none⟩ = .ok [])
    ∧ (∀ ts, ∃ cfgs,
        load_thermostats ⟨none, some ts⟩ = .ok cfgs ∧ cfgs.length = ts.length)
    ∧ programStart (.ok emptyObjectData) =
        ([Event.logEmptyConfig DATA_FILE], .emptyConfig)
    ∧ exitCode (programStart (.ok emptyObjectData)).snd = some 0 := by
  refine ⟨rfl, fun rs m h => ?_, fun ts => ?_, rfl, rfl⟩
  · simp [load_thermostats, h]
  · exact ⟨(ts.map (convertEntry [])), rfl, ts.length_map _⟩

/-- C10 witness: a present, well-formed rooms array with the thermostats key
absent loads as the empty list. -/
theorem C10_missing_keys_witness :
    load_thermostats ⟨some [⟨some "r1", some "Bad"⟩], none⟩ = .ok [] := by
  exact C10_missing_keys.2.1 [⟨some "r1", some "Bad"⟩] [("r1", "Bad")] rfl

/-- A successful `rooms_by_id` on a room list makes `load_thermostats` map
`convertEntry` over the thermostats entries. -/
theorem load_thermostats_ok {data : ConfigData} {m : List (String × String)}
    {cfgs : List ThermostatConfig}
    (hm : rooms_by_id (data.rooms.getD []) = .ok m)
    (hl : load_thermostats data = .ok cfgs) :
    cfgs = (data.thermostats.getD []).map (convertEntry m) := by
  unfold load_thermostats at hl
  rw [hm] at hl
  exact (Except.ok.inj hl).symm

/-- C6: for every valid config file, `load_thermostats` returns exactly one
config per thermostats entry; `room_name` is the room map's name for the
entry's (defaulted) roomId when present and the sentinel `"Unbekannt"`
otherwise, and `label` is the entry's label when present and the entry's
(defaulted) id otherwise. -/
theorem C6_load_per_entry :
    ∀ (data : ConfigData) (m : List (String × String))
      (cfgs : List ThermostatConfig),
      rooms_by_id (data.rooms.getD []) = .ok m →
      load_thermostats data = .ok cfgs →
      cfgs.length = (data.thermostats.getD []).length
      ∧ ∀ i (hc : i < cfgs.length)
          (ht : i < (data.thermostats.getD []).length),
          (cfgs.get ⟨i, hc⟩).room_name =
            ((m.lookup (((data.thermostats.getD []).get ⟨i, ht⟩).roomId.getD
              "")).getD "Unbekannt")
          ∧ (cfgs.get ⟨i, hc⟩).label =
            ((data.thermostats.getD []).get ⟨i, ht⟩).label.getD
              (((data.thermostats.getD []).get ⟨i, ht⟩).id.getD "") := by
  intro data m cfgs hm hl
  have hcfgs := load_thermostats_ok hm hl
  subst hcfgs
  refine ⟨List.length_map _ _, fun i hc ht => ?_⟩
  simp [List.getElem_map, convertEntry, dictGet]

/-- Config data used to instantiate the C6 theorem: one room, a thermostat
with every field present, and one with an unresolvable roomId and no label. -/
def data6 : ConfigData :=
  ⟨some [⟨some "r1", some "Wohnzimmer"⟩],
   some [⟨some "t1", some "r1", some "Heizung", some "00:11:22:33:44:55"⟩,
         ⟨some "t2", some "r9", none, none⟩]⟩

/-- The room map of `data6`. -/
def m6 : List (String × String) := [("r1", "Wohnzimmer")]

/-- The configs loaded from `data6`. -/
def cfgs6 : List ThermostatConfig :=
  (data6.thermostats.getD []).map (convertEntry m6)

/-- C6 witness: applying the per-entry theorem to `data6` resolves the first
entry's room and label and falls back to the sentinel and the id on the
second. -/
theorem C6_load_per_entry_witness :
    cfgs6.length = (data6.thermostats.getD []).length
    ∧ (cfgs6.get ⟨0, by decide⟩).room_name = "Wohnzimmer"
    ∧ (cfgs6.get ⟨0, by decide⟩).label = "Heizung"
    ∧ (cfgs6.get ⟨1, by decide⟩).room_name = "Unbekannt"
    ∧ (cfgs6.get ⟨1, by decide⟩).label = "t2" := by
  have h := C6_load_per_entry data6 m6 cfgs6 rfl rfl
  refine ⟨h.1, ?_, ?_, ?_, ?_⟩
  · exact ((h.2 0 (by decide) (by decide)).1).trans (by decide)
  · exact ((h.2 0 (by decide) (by decide)).2).trans (by decide)
  · exact ((h.2 1 (by decide) (by decide)).1).trans (by decide)
  · exact ((h.2 1 (by decide) (by decide)).2).trans (by decide)

/-- The parsed form of a syntactically valid config file whose single rooms
entry lacks the `id` field. -/
def roomMissingIdData : ConfigData := ⟨some [⟨none, some "Wohnzimmer"⟩], some []⟩

/-- The parsed form of a syntactically valid config file whose single rooms
entry lacks the `name` field. -/
def roomMissingNameData : ConfigData := ⟨some [⟨some "r1", none⟩], some []⟩

/-- C8 counterexample: a syntactically valid config file whose rooms entry
lacks `id` (or `name`) does NOT degrade gracefully — the direct subscripts
`room["id"]`/`room["name"]` on main.py line 36 raise `KeyError` and the load
fails, contradicting the claim that missing fields in every entry of both
arrays are tolerated. -/
theorem C8_counterexample :
    load_thermostats roomMissingIdData = .error "KeyError: id"
    ∧ load_thermostats roomMissingNameData = .error "KeyError: name" := by
  exact ⟨rfl, rfl⟩

/-- Every room entry having both `id` and `name` makes `rooms_by_id`
succeed. -/
theorem rooms_by_id_ok (rs : List RoomEntry)
    (h : ∀ r ∈ rs, r.id.isSome ∧ r.name.isSome) :
    ∃ m, rooms_by_id rs = .ok m := by
  induction rs with
  | nil => exact ⟨[], rfl⟩
  | cons r rest ih =>
    obtain ⟨hid, hname⟩ := h r (by simp)
    obtain ⟨m, hm⟩ := ih fun x hx => h x (by simp [hx])
    obtain ⟨i, hi⟩ := Option.isSome_iff_exists.mp hid
    obtain ⟨n, hn⟩ := Option.isSome_iff_exists.mp hname
    exact ⟨m ++ [(i, n)], by simp [rooms_by_id, hi, hn, hm]⟩

/-- C8 (amended): graceful degradation holds for the thermostats array —
whichever of `id`, `roomId`, `label`, `address` are absent, the load succeeds
with one config per entry — provided every rooms entry carries both `id` and
`name`; a rooms entry missing either field makes the load fail
(see the counterexample). -/
theorem C8_graceful_fields :
    ∀ data : ConfigData,
      (∀ r ∈ data.rooms.getD [], r.id.isSome ∧ r.name.isSome) →
      ∃ cfgs, load_thermostats data = .ok cfgs
        ∧ cfgs.length = (data.thermostats.getD []).length := by
  intro data h
  obtain ⟨m, hm⟩ := rooms_by_id_ok _ h
  exact ⟨(data.thermostats.getD []).map (convertEntry m),
    by simp [load_thermostats, hm], List.length_map _ _⟩

/-- C8 witness: a config whose thermostat entry has every field absent loads
into exactly one config record. -/
theorem C8_graceful_fields_witness :
    ∃ cfgs,
      load_thermostats ⟨some [⟨some "r1", some "Wohnzimmer"⟩],
        some [⟨none, none, none, none⟩]⟩ = .ok cfgs ∧ cfgs.length = 1 := by
  exact C8_graceful_fields
    ⟨some [⟨some "r1", some "Wohnzimmer"⟩], some [⟨none, none, none, none⟩]⟩
    (by decide)

/-- Lookup in the map built by `rooms_by_id` returns the name of the LAST
rooms entry carrying the looked-up id (Python dict overwrite semantics). -/
theorem rooms_by_id_lookup (rs : List RoomEntry) (m : List (String × String))
    (k : String) (h : rooms_by_id rs = .ok m) :
    m.lookup k =
      (rs.reverse.find? (fun x => x.id == some k)).map
        (fun x => x.name.getD "") := by
  induction rs generalizing m with
  | nil =>
    simp only [rooms_by_id] at h
    cases h
    simp
  | cons r rest ih =>
    rcases r with ⟨rid, rname⟩
    cases rid with
    | none => simp [rooms_by_id] at h
    | some i =>
      cases rname with
      | none => simp [rooms_by_id] at h
      | some n =>
        cases hrest : rooms_by_id rest with
        | error e => simp [rooms_by_id, hrest] at h
        | ok m0 =>
          simp only [rooms_by_id, hrest] at h
          cases h
          rw [List.lookup_append, List.reverse_cons, List.find?_append,
            ih m0 hrest]
          cases hfind : rest.reverse.find? (fun x => x.id == some k) with
          | some r0 => simp
          | none =>
            simp only [Option.map_none, Option.none_or]
            by_cases hik : k = i
            · subst hik
              simp [List.lookup, List.find?]
            · have h1 : (k == i) = false := by
                exact beq_false_of_ne hik
              have h2 : (i == k) = false := by
                exact beq_false_of_ne fun hh => hik hh.symm
              simp [h1, h2]
              exact hik

/-- C9: the room map is built first with last-write-wins semantics for
duplicated room ids (a lookup returns the name of the last entry with that
id), and the loaded config list preserves the file order of the thermostats
array (witnessed by the id and address sequences). -/
theorem C9_last_write_wins_and_order :
    (∀ (rs : List RoomEntry) (m : List (String × String)) (k : String),
      rooms_by_id rs = .ok m →
      m.lookup k =
        (rs.reverse.find? (fun x => x.id == some k)).map
          (fun x => x.name.getD ""))
    ∧ (∀ (data : ConfigData) (m : List (String × String))
        (cfgs : List ThermostatConfig),
        rooms_by_id (data.rooms.getD []) = .ok m →
        load_thermostats data = .ok cfgs →
        cfgs.map (fun c => c.id) =
          (data.thermostats.getD []).map (fun e => e.id.getD "")
        ∧ cfgs.map (fun c => c.address) =
          (data.thermostats.getD []).map (fun e => e.address.getD "")) := by
  refine ⟨rooms_by_id_lookup, fun data m cfgs hm hl => ?_⟩
  have hcfgs := load_thermostats_ok hm hl
  subst hcfgs
  constructor <;> simp [List.map_map, convertEntry, Function.comp]

/-- A rooms list with a duplicated id, for instantiating the C9 theorem. -/
def dupRooms : List RoomEntry :=
  [⟨some "r1", some "Alt"⟩, ⟨some "r1", some "Neu"⟩]

/-- C9 witness: with the id `"r1"` duplicated, lookup returns the LAST
entry's name, and the configs loaded from a two-element thermostats array
keep the file order of ids and addresses. -/
theorem C9_last_write_wins_and_order_witness :
    ([("r1", "Neu"), ("r1", "Alt")] : List (String × String)).lookup "r1" =
      some "Neu"
    ∧ cfgs6.map (fun c => c.id) = ["t1", "t2"]
    ∧ cfgs6.map (fun c => c.address) = ["00:11:22:33:44:55", ""] := by
  refine ⟨?_, ?_, ?_⟩
  · exact (C9_last_write_wins_and_order.1 dupRooms
      [("r1", "Neu"), ("r1", "Alt")] "r1" rfl).trans (by decide)
  · exact ((C9_last_write_wins_and_order.2 data6 m6 cfgs6 rfl rfl).1).trans
      (by decide)
  · exact ((C9_last_write_wins_and_order.2 data6 m6 cfgs6 rfl rfl).2).trans
      (by decide)

/-- The events of one active cycle, decomposed into try block, except
handler, finally block and the trailing sleep. -/
theorem activeCycle_events (config : ThermostatConfig) (env : CycleEnv)
    (d : Option BLEDevice) :
    (activeCycle config env d).snd =
      (tryBody config env d).events
        ++ (handleErr config (tryBody config env d).device
             (tryBody config env d).err).snd
        ++ cleanup config env (tryBody config env d).created
        ++ [.sleep POLL_INTERVAL_SECONDS] := rfl

/-- The try block emits neither sleeps nor disconnects, and assigns the
`thermostat` local exactly when a handle was cached or the scan found a
device. -/
theorem tryBody_shape (config : ThermostatConfig) (env : CycleEnv)
    (d : Option BLEDevice) :
    countSleeps (tryBody config env d).events = 0
    ∧ countDisconnects (tryBody config env d).events = 0
    ∧ (tryBody config env d).created = thermostatCreated env d := by
  rcases env with ⟨sr, cr, qr, cc, dr⟩
  rcases d with _ | dev <;> rcases sr with e0 | _ | dev0 <;>
    rcases cr with _ | e1 <;> rcases qr with e2 | st <;>
    simp [tryBody, resolve_ble_device, afterResolve, thermostatCreated,
      countSleeps, countDisconnects, isSleep, isDisconnect]

/-- The except handler emits neither sleeps nor disconnects. -/
theorem handleErr_shape (config : ThermostatConfig) (dev : Option BLEDevice)
    (err : Option CycleErr) :
    countSleeps (handleErr config dev err).snd = 0
    ∧ countDisconnects (handleErr config dev err).snd = 0 := by
  rcases err with _ | ke | _ <;>
    simp [handleErr, countSleeps, countDisconnects, isSleep, isDisconnect]

/-- The finally block emits no sleep, and attempts disconnect exactly once
iff a `Thermostat` was constructed and it still reports connected. -/
theorem cleanup_shape (config : ThermostatConfig) (env : CycleEnv)
    (b : Bool) :
    countSleeps (cleanup config env b) = 0
    ∧ countDisconnects (cleanup config env b) =
        (if b && env.connectedAtCleanup then 1 else 0) := by
  rcases env with ⟨sr, cr, qr, cc, dr⟩
  rcases b <;> rcases cc <;> rcases dr with _ | _ | _ <;>
    simp [cleanup, countSleeps, countDisconnects, isSleep, isDisconnect]

/-- Every active cycle sleeps exactly once, as its last event. -/
theorem activeCycle_sleep (config : ThermostatConfig) (env : CycleEnv)
    (d : Option BLEDevice) :
    countSleeps (activeCycle config env d).snd = 1
    ∧ ((activeCycle config env d).snd).getLast? =
        some (.sleep POLL_INTERVAL_SECONDS) := by
  rw [countSleeps, activeCycle_events]
  constructor
  · simp only [List.countP_append]
    have h1 := (tryBody_shape config env d).1
    have h2 := (handleErr_shape config (tryBody config env d).device
      (tryBody config env d).err).1
    have h3 := (cleanup_shape config env (tryBody config env d).created).1
    rw [countSleeps] at h1 h2 h3
    rw [h1, h2, h3]
    simp [isSleep]
  · simp

/-- Every active cycle disconnects exactly once when a client was created and
still connected, and never otherwise. -/
theorem activeCycle_disconnect (config : ThermostatConfig) (env : CycleEnv)
    (d : Option BLEDevice) :
    countDisconnects (activeCycle config env d).snd =
      (if thermostatCreated env d && env.connectedAtCleanup then 1 else 0) := by
  rw [countDisconnects, activeCycle_events]
  simp only [List.countP_append]
  have h1 := (tryBody_shape config env d).2.1
  have h2 := (handleErr_shape config (tryBody config env d).device
    (tryBody config env d).err).2
  have h3 := (cleanup_shape config env (tryBody config env d).created).2
  rw [countDisconnects] at h1 h2 h3
  rw [h1, h2, h3, (tryBody_shape config env d).2.2]
  simp [isDisconnect]

/-- The active loop sleeps exactly once per provided cycle environment,
whatever the outcomes. -/
theorem countSleeps_runActive (config : ThermostatConfig) :
    ∀ (envs : List CycleEnv) (d : Option BLEDevice),
      countSleeps ((runActive config envs d).snd) = envs.length := by
  intro envs
  induction envs with
  | nil => intro d; rfl
  | cons env rest ih =>
    intro d
    show countSleeps ((activeCycle config env d).snd
      ++ (runActive config rest (activeCycle config env d).fst).snd)
        = rest.length + 1
    rw [countSleeps, List.countP_append]
    rw [← countSleeps, ← countSleeps, ih, (activeCycle_sleep config env d).1]
    omega

/-- The dummy loop sleeps and heartbeats exactly once per cycle and emits no
hardware event. -/
theorem runDummy_shape (config : ThermostatConfig) :
    ∀ n : Nat,
      countSleeps (runDummy config n) = n
      ∧ countHeartbeats (runDummy config n) = n
      ∧ (runDummy config n).countP isHardwareEvent = 0 := by
  intro n
  induction n with
  | zero => exact ⟨rfl, rfl, rfl⟩
  | succ n ih =>
    obtain ⟨h1, h2, h3⟩ := ih
    rw [countSleeps] at h1
    rw [countHeartbeats] at h2
    refine ⟨?_, ?_, ?_⟩ <;>
      simp [runDummy, countSleeps, countHeartbeats, dummyCycle,
        List.countP_cons, h1, h2, h3, isSleep, isHeartbeat, isHardwareEvent]

/-- If the resolution, connect or query step of a cycle fails, the try block
ends with an exception. -/
theorem tryBody_err_isSome (config : ThermostatConfig) (env : CycleEnv)
    (d : Option BLEDevice)
    (h : (d = none ∧ (env.scanResult = .ok none
            ∨ ∃ e, env.scanResult = .error e))
      ∨ (∃ e, env.connectResult = some e)
      ∨ (∃ e, env.queryResult = .error e)) :
    ((tryBody config env d).err).isSome = true := by
  rcases env with ⟨sr, cr, qr, cc, dr⟩
  rcases d with _ | dev <;> rcases sr with e0 | _ | dev0 <;>
    rcases cr with _ | e1 <;> rcases qr with e2 | st <;>
    simp_all [tryBody, resolve_ble_device, afterResolve]

/-- A cycle whose try block raised hands `device = None` to the next
iteration. -/
theorem activeCycle_fst_of_err (config : ThermostatConfig) (env : CycleEnv)
    (d : Option BLEDevice) (e : CycleErr)
    (h : (tryBody config env d).err = some e) :
    (activeCycle config env d).fst = none := by
  have hfst : (activeCycle config env d).fst =
      (handleErr config (tryBody config env d).device
        (tryBody config env d).err).fst := rfl
  rw [hfst, h]
  rcases e with ke | _ <;> rfl

/-- A cycle starting with no cached handle begins with the scan of the
configured address. -/
theorem activeCycle_none_head (config : ThermostatConfig) (env : CycleEnv) :
    ((activeCycle config env none).snd).head? =
      some (.scan config.address) := by
  rcases env with ⟨sr, cr, qr, cc, dr⟩
  rcases sr with e0 | _ | dev0 <;> rcases cr with _ | e1 <;>
    rcases qr with e2 | st <;>
    simp [activeCycle, tryBody, resolve_ble_device, afterResolve]

/-- A cycle whose try block raised logs the failure at error level. -/
theorem activeCycle_err_logged (config : ThermostatConfig) (env : CycleEnv)
    (d : Option BLEDevice) (e : CycleErr)
    (h : (tryBody config env d).err = some e) :
    ∃ ev ∈ (activeCycle config env d).snd, logLevel ev = some .error := by
  rcases e with ke | _
  · exact ⟨.logKnownError config.label config.address ke,
      by rw [activeCycle_events, h]; simp [handleErr], rfl⟩
  · exact ⟨.logUnknownError config.label config.address,
      by rw [activeCycle_events, h]; simp [handleErr], rfl⟩

/-- C1: for every configured device and every sequence of device-scoped
failures, the supervisor absorbs each failing cycle: every cycle (failing or
not) ends in its sleep and the loop completes all N cycles with exactly N
sleeps; a failing cycle is logged at error level; and the program's only
fatal path is a configuration load failure at startup. -/
theorem C1_supervisor_resilience :
    (∀ (config : ThermostatConfig) (envs : List CycleEnv),
      countSleeps (poll_thermostat config envs) = envs.length)
    ∧ (∀ (config : ThermostatConfig) (env : CycleEnv) (d : Option BLEDevice)
        (e : CycleErr), (tryBody config env d).err = some e →
        (∃ ev ∈ (activeCycle config env d).snd, logLevel ev = some .error)
        ∧ ((activeCycle config env d).snd).getLast? =
            some (.sleep POLL_INTERVAL_SECONDS))
    ∧ (∀ parsed : Except String ConfigData,
        isFatal (programStart parsed).snd = true ↔
          ∃ e, parsed.bind load_thermostats = .error e) := by
  refine ⟨fun config envs => ?_,
    fun config env d e h =>
      ⟨activeCycle_err_logged config env d e h,
        (activeCycle_sleep config env d).2⟩,
    fun parsed => ?_⟩
  · rw [poll_thermostat]
    by_cases hd : config.is_dummy <;>
      simp [hd, (runDummy_shape config envs.length).1,
        countSleeps_runActive]
  · cases parsed with
    | error e => simp [programStart, mainStart, isFatal, Except.bind]
    | ok data =>
      cases hl : load_thermostats data with
      | error e =>
        simp [programStart, mainStart, isFatal, Except.bind, hl]
      | ok cfgs =>
        cases cfgs <;>
          simp [programStart, mainStart, isFatal, Except.bind, hl]

/-- A non-dummy config used to instantiate the loop theorems. -/
def cfgActive : ThermostatConfig :=
  { id := "t1", room_name := "Wohnzimmer", label := "Heizung",
    address := "00:11:22:33:44:55", is_dummy := false }

/-- A successful status reading. -/
def stOk : Status :=
  { target_temperature := (43 : ℚ) / 2, valve := 40,
    operation_mode := "AUTO", is_window_open := false, is_boost := false,
    is_low_battery := false }

/-- A cycle in which the scan raises a connection error. -/
def envScanFail : CycleEnv :=
  { scanResult := .error (.known .connection), connectResult := none,
    queryResult := .ok stOk, connectedAtCleanup := false,
    disconnectResult := none }

/-- C1 witness: a cycle whose resolution fails with a connection error logs
at error level and still ends in the sleep. -/
theorem C1_supervisor_resilience_witness :
    (∃ ev ∈ (activeCycle cfgActive envScanFail none).snd,
      logLevel ev = some .error)
    ∧ ((activeCycle cfgActive envScanFail none).snd).getLast? =
        some (.sleep POLL_INTERVAL_SECONDS) :=
  C1_supervisor_resilience.2.1 cfgActive envScanFail none
    (.known .connection) rfl

/-- C2: after any single cycle in which resolution, connect or query fails —
with a known or an unknown error — the cached handle is `none`, so any next
cycle begins with device resolution. -/
theorem C2_invalidate_and_rediscover :
    ∀ (config : ThermostatConfig) (env : CycleEnv) (d : Option BLEDevice),
      ((d = none ∧ (env.scanResult = .ok none
          ∨ ∃ e, env.scanResult = .error e))
        ∨ (∃ e, env.connectResult = some e)
        ∨ (∃ e, env.queryResult = .error e)) →
      (activeCycle config env d).fst = none
      ∧ ∀ env2 : CycleEnv,
          ((activeCycle config env2 none).snd).head? =
            some (.scan config.address) := by
  intro config env d h
  obtain ⟨e, he⟩ :=
    Option.isSome_iff_exists.mp (tryBody_err_isSome config env d h)
  exact ⟨activeCycle_fst_of_err config env d e he,
    fun env2 => activeCycle_none_head config env2⟩

/-- A cycle in which the query raises an unexpected error after a successful
connect on a cached handle. -/
def envQueryFail : CycleEnv :=
  { scanResult := .ok (some ⟨"00:11:22:33:44:55", "Heizung"⟩),
    connectResult := none, queryResult := .error .unknown,
    connectedAtCleanup := true, disconnectResult := none }

/-- C2 witness: a query failure on a cycle holding a cached handle clears the
handle, and a cycle without a handle starts by scanning. -/
theorem C2_invalidate_and_rediscover_witness :
    (activeCycle cfgActive envQueryFail
      (some ⟨"00:11:22:33:44:55", "Heizung"⟩)).fst = none
    ∧ ∀ env2 : CycleEnv,
        ((activeCycle cfgActive env2 none).snd).head? =
          some (.scan cfgActive.address) :=
  C2_invalidate_and_rediscover cfgActive envQueryFail
    (some ⟨"00:11:22:33:44:55", "Heizung"⟩)
    (.inr (.inr ⟨.unknown, rfl⟩))

/-- C3: cleanup runs exactly once per iteration whatever the outcome of the
earlier steps — disconnect is attempted iff a client was created and still
reports connected — a disconnect failure is logged (the known EOFError
anomaly at warning level, anything else at error level) and never prevents
the trailing sleep, and the loop completes all N cycles with N sleeps
regardless of cleanup outcome. -/
theorem C3_cleanup_exactly_once :
    (∀ (config : ThermostatConfig) (env : CycleEnv) (d : Option BLEDevice),
      countDisconnects (activeCycle config env d).snd =
        (if thermostatCreated env d && env.connectedAtCleanup then 1 else 0)
      ∧ ((activeCycle config env d).snd).getLast? =
          some (.sleep POLL_INTERVAL_SECONDS)
      ∧ (env.disconnectResult = some .eof →
          (thermostatCreated env d && env.connectedAtCleanup) = true →
          Event.logDisconnectWarning config.label config.address ∈
            (activeCycle config env d).snd)
      ∧ (env.disconnectResult = some .other →
          (thermostatCreated env d && env.connectedAtCleanup) = true →
          Event.logDisconnectException config.label config.address ∈
            (activeCycle config env d).snd)
      ∧ logLevel (Event.logDisconnectWarning config.label config.address) =
          some .warning
      ∧ logLevel (Event.logDisconnectException config.label config.address) =
          some .error)
    ∧ ∀ (config : ThermostatConfig) (envs : List CycleEnv),
        countSleeps ((runActive config envs none).snd) = envs.length := by
  refine ⟨fun config env d =>
      ⟨activeCycle_disconnect config env d,
        (activeCycle_sleep config env d).2, ?_, ?_, rfl, rfl⟩,
    fun config envs => countSleeps_runActive config envs none⟩
  · intro hdr hcc
    rw [activeCycle_events, (tryBody_shape config env d).2.2]
    simp [cleanup, hcc, hdr]
  · intro hdr hcc
    rw [activeCycle_events, (tryBody_shape config env d).2.2]
    simp [cleanup, hcc, hdr]

/-- A fully successful cycle whose disconnect raises EOFError. -/
def envOkEof : CycleEnv :=
  { scanResult := .ok (some ⟨"00:11:22:33:44:55", "Heizung"⟩),
    connectResult := none, queryResult := .ok stOk,
    connectedAtCleanup := true, disconnectResult := some .eof }

/-- C3 witness: on a cycle that connects and whose disconnect raises
EOFError, exactly one disconnect is attempted, the warning is logged and the
cycle still ends in its sleep. -/
theorem C3_cleanup_exactly_once_witness :
    Event.logDisconnectWarning cfgActive.label cfgActive.address ∈
      (activeCycle cfgActive envOkEof none).snd
    ∧ countDisconnects (activeCycle cfgActive envOkEof none).snd = 1
    ∧ ((activeCycle cfgActive envOkEof none).snd).getLast? =
        some (.sleep POLL_INTERVAL_SECONDS) := by
  refine ⟨?_, ?_, (C3_cleanup_exactly_once.1 cfgActive envOkEof none).2.1⟩
  · exact (C3_cleanup_exactly_once.1 cfgActive envOkEof none).2.2.1 rfl rfl
  · exact (C3_cleanup_exactly_once.1 cfgActive envOkEof none).1.trans
      (by decide)

/-- Each event of a dummy run is the heartbeat line or the sleep. -/
theorem runDummy_mem (config : ThermostatConfig) :
    ∀ (n : Nat) (ev : Event), ev ∈ runDummy config n →
      ev = Event.logHeartbeat config.label config.address config.room_name
      ∨ ev = Event.sleep POLL_INTERVAL_SECONDS := by
  intro n
  induction n with
  | zero => intro ev hev; cases hev
  | succ n ih =>
    intro ev hev
    rcases List.mem_append.mp hev with h | h
    · rcases h with _ | ⟨_, _ | ⟨_, h⟩⟩
      · exact .inl rfl
      · exact .inr rfl
      · cases h
    · exact ih ev h

/-- The dummy run is the poll-interval heartbeat pattern repeated. -/
theorem runDummy_eq (config : ThermostatConfig) :
    ∀ n : Nat, runDummy config n =
      (List.replicate n
        [Event.logHeartbeat config.label config.address config.room_name,
         Event.sleep POLL_INTERVAL_SECONDS]).flatten := by
  intro n
  induction n with
  | zero => rfl
  | succ n ih => simp [runDummy, List.replicate_succ, ih, dummyCycle]

/-- C4: a dummy-routed supervisor emits exactly one informational heartbeat
line (label, address, room) followed by the poll-interval sleep per cycle,
for any number of cycles, and never invokes resolution, connect, query or
disconnect. -/
theorem C4_dummy_heartbeat :
    ∀ (config : ThermostatConfig) (envs : List CycleEnv),
      config.is_dummy = true →
      poll_thermostat config envs =
        (List.replicate envs.length
          [Event.logHeartbeat config.label config.address config.room_name,
           Event.sleep POLL_INTERVAL_SECONDS]).flatten
      ∧ (poll_thermostat config envs).countP isHardwareEvent = 0
      ∧ countHeartbeats (poll_thermostat config envs) = envs.length
      ∧ countSleeps (poll_thermostat config envs) = envs.length
      ∧ ∀ ev ∈ poll_thermostat config envs,
          (ev = Event.logHeartbeat config.label config.address
              config.room_name
            ∧ logLevel ev = some .info)
          ∨ ev = Event.sleep POLL_INTERVAL_SECONDS := by
  intro config envs hd
  have hp : poll_thermostat config envs = runDummy config envs.length := by
    simp [poll_thermostat, hd]
  rw [hp]
  refine ⟨runDummy_eq config envs.length,
    (runDummy_shape config envs.length).2.2,
    (runDummy_shape config envs.length).2.1,
    (runDummy_shape config envs.length).1, ?_⟩
  intro ev hev
  rcases runDummy_mem config envs.length ev hev with h | h
  · exact .inl ⟨h, by rw [h]; rfl⟩
  · exact .inr h

/-- A dummy config: the address ends in the placeholder. -/
def cfgDummy : ThermostatConfig :=
  { id := "t9", room_name := "Keller", label := "Platzhalter",
    address := "12:34:56:XX:XX:XX", is_dummy := true }

/-- C4 witness: one dummy cycle is exactly the heartbeat followed by the
sleep, with no hardware event. -/
theorem C4_dummy_heartbeat_witness :
    poll_thermostat cfgDummy [envScanFail] =
      [Event.logHeartbeat "Platzhalter" "12:34:56:XX:XX:XX" "Keller",
       Event.sleep POLL_INTERVAL_SECONDS]
    ∧ (poll_thermostat cfgDummy [envScanFail]).countP isHardwareEvent = 0 := by
  have h := C4_dummy_heartbeat cfgDummy [envScanFail] rfl
  exact ⟨h.1.trans (by decide), h.2.1⟩
